import Mathlib

/-!
Shallow embedding of the portfolio-rebalancing engine of this repository
(`src/googleSheetsHelper.v2.js`, with the sibling revisions in
`src/unnamed/part_000` and `src/unnamed/part_001`).

JavaScript numbers are modelled as exact rationals extended with the three
IEEE special values the code can actually produce (`NaN`, `Infinity`,
`-Infinity`); rounding of binary floating point is not modelled, every
arithmetic step is exact.  Spreadsheet cells are either numbers or strings.
External data acquisition (FRED / StatCan / Yahoo fetches) is out of the
modelled core: the engine is embedded as a function of the already-resolved
indicator scores, exactly at the boundary where `GET_REBALANCE_SIGNAL`
consumes the result of `getEnhancedMarketData`.
-/

/-- A JavaScript number: a finite (exact) rational, `NaN`, `Infinity` or
`-Infinity`.  The sign of zero is not tracked (the engine never branches
on it). -/
inductive JVal where
  | nan : JVal
  | inf : JVal
  | ninf : JVal
  | num : ℚ → JVal
deriving DecidableEq, Repr

namespace JVal

/-- JS unary minus. -/
def jneg : JVal → JVal
  | nan => nan
  | inf => ninf
  | ninf => inf
  | num q => num (-q)

/-- JS `+` on numbers: `NaN` absorbs, `Infinity + -Infinity = NaN`. -/
def jadd : JVal → JVal → JVal
  | nan, _ => nan
  | _, nan => nan
  | inf, ninf => nan
  | ninf, inf => nan
  | inf, _ => inf
  | _, inf => inf
  | ninf, _ => ninf
  | _, ninf => ninf
  | num a, num b => num (a + b)

/-- JS `-` on numbers. -/
def jsub (a b : JVal) : JVal := jadd a (jneg b)

/-- JS `*` on numbers: `NaN` absorbs, `±Infinity * 0 = NaN`. -/
def jmul : JVal → JVal → JVal
  | nan, _ => nan
  | _, nan => nan
  | inf, inf => inf
  | inf, ninf => ninf
  | ninf, inf => ninf
  | ninf, ninf => inf
  | inf, num q => if 0 < q then inf else if q < 0 then ninf else nan
  | num q, inf => if 0 < q then inf else if q < 0 then ninf else nan
  | ninf, num q => if 0 < q then ninf else if q < 0 then inf else nan
  | num q, ninf => if 0 < q then ninf else if q < 0 then inf else nan
  | num a, num b => num (a * b)

/-- JS `/` on numbers: division by zero yields `±Infinity` (`NaN` for
`0 / 0`), `Infinity / Infinity = NaN`, finite `/ Infinity = 0`. -/
def jdiv : JVal → JVal → JVal
  | nan, _ => nan
  | _, nan => nan
  | inf, inf => nan
  | inf, ninf => nan
  | ninf, inf => nan
  | ninf, ninf => nan
  | inf, num q => if q < 0 then ninf else inf
  | ninf, num q => if q < 0 then inf else ninf
  | num _, inf => num 0
  | num _, ninf => num 0
  | num a, num b =>
      if b = 0 then (if 0 < a then inf else if a < 0 then ninf else nan)
      else num (a / b)

/-- JS `<` on numbers: any comparison with `NaN` is `false`. -/
def jltB : JVal → JVal → Bool
  | num a, num b => decide (a < b)
  | num _, inf => true
  | ninf, num _ => true
  | ninf, inf => true
  | _, _ => false

/-- JS `Math.abs`. -/
def jabs : JVal → JVal
  | nan => nan
  | inf => inf
  | ninf => inf
  | num q => num |q|

/-- JS `Math.min` (binary): `NaN` if either argument is `NaN`. -/
def jmin : JVal → JVal → JVal
  | nan, _ => nan
  | _, nan => nan
  | ninf, _ => ninf
  | _, ninf => ninf
  | inf, b => b
  | a, inf => a
  | num a, num b => num (min a b)

/-- JS `Math.max` (binary): `NaN` if either argument is `NaN`. -/
def jmax : JVal → JVal → JVal
  | nan, _ => nan
  | _, nan => nan
  | inf, _ => inf
  | _, inf => inf
  | ninf, b => b
  | a, ninf => a
  | num a, num b => num (max a b)

/-- JS `Math.sign`. -/
def jsgn : JVal → JVal
  | nan => nan
  | inf => num 1
  | ninf => num (-1)
  | num q => if 0 < q then num 1 else if q < 0 then num (-1) else num 0

/-- JS truthiness of a number: `0` and `NaN` are falsy. -/
def jTruthy : JVal → Bool
  | nan => false
  | inf => true
  | ninf => true
  | num q => decide (q ≠ 0)

end JVal

open JVal

/-- A spreadsheet cell as returned by `getRange(...).getValues()`: a number
or a string (empty cells arrive as the empty string). -/
inductive Cell where
  | num : ℚ → Cell
  | str : String → Cell
deriving DecidableEq, Repr

/-- Digits-so-far accumulator for `jsParseFloat`. -/
def natOfDigits (ds : List Char) : ℕ :=
  ds.foldl (fun a c => a * 10 + (c.toNat - 48)) 0

/-- JS `parseFloat` on the decimal fragment of its grammar: optional
leading spaces, optional sign, digits, optional fraction; the longest
valid prefix is taken and trailing characters are ignored.  `none` stands
for `NaN` (no parsable prefix).  Exponent notation and `Infinity` do not
occur in the sheets this engine reads and are not modelled. -/
def jsParseFloat (s : String) : Option ℚ :=
  let cs := s.data.dropWhile (fun c => c = ' ')
  let signAndRest : ℚ × List Char :=
    match cs with
    | '-' :: rest => (-1, rest)
    | '+' :: rest => (1, rest)
    | _ => (1, cs)
  let intPart := signAndRest.2.takeWhile Char.isDigit
  let rest := signAndRest.2.dropWhile Char.isDigit
  let fracPart : List Char :=
    match rest with
    | '.' :: r => r.takeWhile Char.isDigit
    | _ => []
  if intPart.isEmpty ∧ fracPart.isEmpty then none
  else some (signAndRest.1 *
    ((natOfDigits intPart : ℚ) + (natOfDigits fracPart : ℚ) / (10 ^ fracPart.length)))

/-- JS `String.prototype.replace('%','')`: removes the first occurrence of
the character. -/
def stripFirstPct : List Char → List Char
  | [] => []
  | c :: cs => if c = '%' then cs else c :: stripFirstPct cs

/-- Allocation-cell parsing of `googleSheetsHelper.v2.js`
(`GET_REBALANCE_SIGNAL`, lines 318-322):
`parseFloat(('' + raw).replace('%','')) / 100`.  `none` is `NaN` (the row
is then dropped by the `!isNaN(a)` guard).  For a numeric cell,
stringifying and re-parsing recovers the number exactly, so only the
final division by 100 remains. -/
def parseAllocV2 : Cell → Option ℚ
  | Cell.num q => some (q / 100)
  | Cell.str s => (jsParseFloat (String.mk (stripFirstPct s.data))).map (fun a => a / 100)

/-- Sensitivity-cell parsing: `parseFloat(r[3]) || 1` — both `NaN` and `0`
fall back to `1`. -/
def parseSens : Cell → ℚ
  | Cell.num q => if q = 0 then 1 else q
  | Cell.str s =>
      match jsParseFloat s with
      | none => 1
      | some q => if q = 0 then 1 else q

/-- Average of a list as written in the source:
`arr.reduce((a,b) => a+b, 0) / arr.length`. -/
def listAvg (l : List ℚ) : ℚ := l.sum / (l.length : ℚ)

/-- Trend estimator of `googleSheetsHelper.v2.js` (`calculateTrend`,
lines 191-199; the same function appears in `src/unnamed/part_001`).
`none` for `historical` models a `null`/`undefined` argument.  JS
`slice(-periods)` with `periods = 0` is `slice(0)` (the whole array),
hence the special case.  The division `change = (avg(recent) -
avg(older)) / avg(older)` is JS division: if `avg(older)` is zero it
produces `±Infinity` or `NaN`, which `Math.min`/`Math.max` then clamp or
propagate. -/
def calculateTrend (historical : Option (List ℚ)) (periods : ℕ) : JVal :=
  match historical with
  | none => num 0
  | some l =>
    if l.length < periods + 1 then num 0
    else
      let older := l.take (l.length - periods)
      let recent := if periods = 0 then l else l.drop (l.length - periods)
      if older.length = 0 then num 0
      else
        let change := jdiv (num (listAvg recent - listAvg older)) (num (listAvg older))
        jmax (num (-1)) (jmin (num 1) (jmul change (num 10)))

/-- Trend estimator of the older revision (`src/unnamed/part_000`,
`calculateTrend`, lines 816-833).  JS `slice(0, -recentPeriods)` with
`recentPeriods = 0` is `slice(0, 0) = []`, hence the special case. -/
def calculateTrendV1 (historicalData : Option (List ℚ)) (periods : ℕ) : JVal :=
  match historicalData with
  | none => num 0
  | some l =>
    if l.length < 2 then num 0
    else
      let recentPeriods := min periods l.length
      let recent := if recentPeriods = 0 then l else l.drop (l.length - recentPeriods)
      let older := if recentPeriods = 0 then [] else l.take (l.length - recentPeriods)
      if older.length = 0 then num 0
      else
        let change := jdiv (num (listAvg recent - listAvg older)) (num (listAvg older))
        jmax (num (-1)) (jmin (num 1) (jmul change (num 10)))

/-- `Math.max(-2, Math.min(2, base))` — the final clamp of every numeric
indicator scorer. -/
def clamp2 (z : JVal) : JVal := jmax (num (-2)) (jmin (num 2) z)

/-- Result object of an indicator scorer.  The v2 scorers are inconsistent
about the field name: the no-data branch writes `{score, desc}` while the
normal branch writes `{score, description}`; both fields are therefore
modelled, each `none` when the corresponding branch did not set it. -/
structure Score where
  score : JVal
  description : Option String
  desc : Option String
deriving DecidableEq, Repr

/-- `CONFIG.THRESHOLDS.unemployment`. -/
structure UnempThresholds where
  veryLow : ℚ
  low : ℚ
  high : ℚ
  veryHigh : ℚ
deriving DecidableEq, Repr

/-- `CONFIG.THRESHOLDS.cpi`. -/
structure CpiThresholds where
  veryLow : ℚ
  target : ℚ
  tolerance : ℚ
  high : ℚ
deriving DecidableEq, Repr

/-- `CONFIG.THRESHOLDS.vix`. -/
structure VixThresholds where
  low : ℚ
  normal : ℚ
  elevated : ℚ
  high : ℚ
deriving DecidableEq, Repr

/-- The configuration the scorers read (`CONFIG.THRESHOLDS` and
`CONFIG.TREND_PERIODS` in v2, the `config` argument in the older
revision).  It is passed explicitly so that the clamp invariant can be
stated for every configured threshold set. -/
structure ScoreConfig where
  unemployment : UnempThresholds
  cpi : CpiThresholds
  vix : VixThresholds
  trendPeriods : ℕ
deriving DecidableEq, Repr

/-- The threshold constants of `googleSheetsHelper.v2.js` (`CONFIG`). -/
def defaultScoreConfig : ScoreConfig :=
  { unemployment := { veryLow := 7/2, low := 9/2, high := 11/2, veryHigh := 13/2 }
    cpi := { veryLow := 1, target := 2, tolerance := 1/2, high := 4 }
    vix := { low := 15, normal := 20, elevated := 25, high := 30 }
    trendPeriods := 3 }

/-- Rendering of a number into a description string.  Only the no-data
descriptions are observable in the claims; JS floating-point `toString`
is abbreviated as rational-literal printing. -/
def numStr (q : ℚ) : String := toString q

/-- `calculateUnemploymentScore` of `googleSheetsHelper.v2.js`
(lines 204-216). -/
def calculateUnemploymentScore (curr : Option ℚ) (hist : Option (List ℚ))
    (cfg : ScoreConfig) : Score :=
  match curr with
  | none => { score := num 0, description := none, desc := some "No data" }
  | some c =>
    let t := cfg.unemployment
    let based : ℚ × String :=
      if c < t.veryLow then (2, " (Very Low)")
      else if c < t.low then (1, " (Low)")
      else if t.veryHigh < c then (-2, " (Very High)")
      else if t.high < c then (-1, " (High)")
      else (0, " (Normal)")
    let base := based.1
    let d := numStr c ++ "%" ++ based.2
    let adj := calculateTrend hist cfg.trendPeriods
    let adjScore : JVal :=
      if jTruthy adj then jsub (num base) (jmul adj (num (1/2))) else num base
    let adjDesc : String :=
      if jTruthy adj then d ++ (if jltB (num 0) adj then " Rising" else " Falling") else d
    { score := clamp2 adjScore
      description := some adjDesc
      desc := none }

/-- `calculateCPIScore` of `googleSheetsHelper.v2.js` (lines 218-230).
The `region` argument is accepted and unused, as in the source. -/
def calculateCPIScore (curr : Option ℚ) (hist : Option (List ℚ))
    (region : String) (cfg : ScoreConfig) : Score :=
  match curr with
  | none => { score := num 0, description := none, desc := some "No data" }
  | some c =>
    let _ := region
    let t := cfg.cpi
    let based : ℚ × String :=
      if c < t.veryLow then (-1, " (Deflation Risk)")
      else if |c - t.target| ≤ t.tolerance then (1, " (On Target)")
      else if t.high < c then (-2, " (High Inflation)")
      else if t.target + t.tolerance < c then (-1, " (Above Target)")
      else (0, " (Below Target)")
    let base := based.1
    let d := numStr c ++ "%" ++ based.2
    let adj := calculateTrend hist cfg.trendPeriods
    let adjScore : JVal :=
      if jTruthy adj then jsub (num base) (jmul (jsgn adj) (num (3/10))) else num base
    let adjDesc : String :=
      if jTruthy adj then d ++ (if jltB (num 0) adj then " Rising" else " Falling") else d
    { score := clamp2 adjScore
      description := some adjDesc
      desc := none }

/-- `calculateVIXScore` of `googleSheetsHelper.v2.js` (lines 232-244). -/
def calculateVIXScore (curr : Option ℚ) (hist : Option (List ℚ))
    (cfg : ScoreConfig) : Score :=
  match curr with
  | none => { score := num 0, description := none, desc := some "No data" }
  | some c =>
    let t := cfg.vix
    let based : ℚ × String :=
      if c < t.low then (1, " (Low Vol)")
      else if c < t.normal then (1/2, " (Normal)")
      else if c < t.elevated then (-1/2, " (Elevated)")
      else if c < t.high then (-1, " (High)")
      else (-2, " (Very High)")
    let base := based.1
    let d := numStr c ++ based.2
    let adj := calculateTrend hist cfg.trendPeriods
    let adjScore : JVal :=
      if jTruthy adj then jsub (num base) (jmul adj (num (2/5))) else num base
    let adjDesc : String :=
      if jTruthy adj then d ++ (if jltB (num 0) adj then " Rising" else " Falling") else d
    { score := clamp2 adjScore
      description := some adjDesc
      desc := none }

/-- JS `String.prototype.includes`: substring test. -/
def jsIncludes (pat : List Char) : List Char → Bool
  | [] => pat.isEmpty
  | c :: cs => pat.isPrefixOf (c :: cs) || jsIncludes pat cs

/-- `calculateGDPScore` of `googleSheetsHelper.v2.js` (lines 246-255).
The GDP reading is textual; `!curr` is JS-falsy for both `null` and the
empty string. -/
def calculateGDPScore (curr : Option String) : Score :=
  match curr with
  | none => { score := num 0, description := none, desc := some "No data" }
  | some s =>
    if s = "" then { score := num 0, description := none, desc := some "No data" }
    else
      let txt := s.toLower
      let up := ["rising", "positive", "increasing", "expanding"]
      let down := ["falling", "negative", "decreasing", "contracting"]
      let base : ℚ :=
        if up.any (fun w => jsIncludes w.data txt.data) then 1
        else if down.any (fun w => jsIncludes w.data txt.data) then -1
        else 0
      { score := num base, description := some s, desc := none }

/-- `calculateYieldScore` of `googleSheetsHelper.v2.js` (lines 257-267).
Its cut points are fixed in the code, not configured. -/
def calculateYieldScore (curr : Option ℚ) (hist : Option (List ℚ))
    (cfg : ScoreConfig) : Score :=
  match curr with
  | none => { score := num 0, description := none, desc := some "No data" }
  | some c =>
    let based : ℚ × String :=
      if (1/2 : ℚ) < c then (1, " (Positive)")
      else if (-1/2 : ℚ) < c then (0, " (Flat)")
      else if (-1 : ℚ) < c then (-1, " (Inverted)")
      else (-2, " (Deep Inversion)")
    let base := based.1
    let d := numStr c ++ "%" ++ based.2
    let adj := calculateTrend hist cfg.trendPeriods
    let adjScore : JVal :=
      if jTruthy adj then jadd (num base) (jmul adj (num (3/10))) else num base
    let adjDesc : String :=
      if jTruthy adj then d ++ (if jltB (num 0) adj then " Steepening" else " Flattening") else d
    { score := clamp2 adjScore
      description := some adjDesc
      desc := none }

/-- `calculateCreditScore` of `googleSheetsHelper.v2.js` (lines 269-279).
Its cut points are fixed in the code, not configured. -/
def calculateCreditScore (curr : Option ℚ) (hist : Option (List ℚ))
    (cfg : ScoreConfig) : Score :=
  match curr with
  | none => { score := num 0, description := none, desc := some "No data" }
  | some c =>
    let based : ℚ × String :=
      if c < 1 then (1, " (Low)")
      else if c < 2 then (0, " (Normal)")
      else if c < 3 then (-1, " (Elevated)")
      else (-2, " (High)")
    let base := based.1
    let d := numStr c ++ "%" ++ based.2
    let adj := calculateTrend hist cfg.trendPeriods
    let adjScore : JVal :=
      if jTruthy adj then jsub (num base) (jmul adj (num (2/5))) else num base
    let adjDesc : String :=
      if jTruthy adj then d ++ (if jltB (num 0) adj then " Widening" else " Tightening") else d
    { score := clamp2 adjScore
      description := some adjDesc
      desc := none }

/-- The seven indicator scores consumed by `GET_REBALANCE_SIGNAL`
(the `scores` field of `getEnhancedMarketData()`; each is the `.score`
of one scorer — a finite number, see the clamp invariant). -/
structure Scores where
  unemployment : ℚ
  usCPI : ℚ
  canCPI : ℚ
  canGDP : ℚ
  vix : ℚ
  yieldCurve : ℚ
  creditSpread : ℚ
deriving DecidableEq, Repr

/-- `CONFIG.WEIGHTS` of `googleSheetsHelper.v2.js`. -/
structure Weights where
  unemployment : ℚ
  usCPI : ℚ
  canCPI : ℚ
  canGDP : ℚ
  vix : ℚ
  yieldCurve : ℚ
  creditSpread : ℚ
deriving DecidableEq, Repr

/-- `CONFIG.REBALANCING` of `googleSheetsHelper.v2.js`. -/
structure Rebalancing where
  minThreshold : ℚ
  maxSingleMove : ℚ
  volatilityAdjustment : Bool
  balanceConstraint : Bool
deriving DecidableEq, Repr

/-- The part of `CONFIG` that `GET_REBALANCE_SIGNAL` reads. -/
structure EngineConfig where
  WEIGHTS : Weights
  REBALANCING : Rebalancing
deriving DecidableEq, Repr

/-- The constants of `googleSheetsHelper.v2.js` (`CONFIG`, lines 38-59). -/
def CONFIG : EngineConfig :=
  { WEIGHTS :=
      { unemployment := 6/5, usCPI := 6/5, canCPI := 4/5, canGDP := 1
        vix := 3/2, yieldCurve := 17/10, creditSpread := 7/5 }
    REBALANCING :=
      { minThreshold := 1/200, maxSingleMove := 3/20
        volatilityAdjustment := true, balanceConstraint := true } }

/-- `getRegionalScore` of `googleSheetsHelper.v2.js` (lines 336-351),
parameterized by the looked-up region (`regionMap[t]`, `none` when the
ticker has no metadata row; `region || 'Global'` also sends the empty
string to the Global branch).  The Global branch iterates over all seven
score keys; every key has a non-null weight. -/
def getRegionalScore (region : Option String) (scores : Scores)
    (cfg : EngineConfig) : ℚ :=
  let r := match region with
    | none => "Global"
    | some s => if s = "" then "Global" else s
  let w := cfg.WEIGHTS
  let totalWsum : ℚ × ℚ :=
    if r = "U.S." then
      (scores.unemployment * w.unemployment * (3/2) + scores.usCPI * w.usCPI * (13/10)
        + scores.vix * w.vix * (6/5) + scores.yieldCurve * w.yieldCurve * (11/10)
        + scores.creditSpread * w.creditSpread * (11/10),
       w.unemployment * (3/2) + w.usCPI * (13/10) + w.vix * (6/5)
        + w.yieldCurve * (11/10) + w.creditSpread * (11/10))
    else if r = "Canada" then
      (scores.canCPI * w.canCPI * (3/2) + scores.canGDP * w.canGDP * (7/5)
        + scores.unemployment * w.unemployment * (7/10) + scores.vix * w.vix * (4/5),
       w.canCPI * (3/2) + w.canGDP * (7/5) + w.unemployment * (7/10) + w.vix * (4/5))
    else
      (scores.unemployment * w.unemployment + scores.usCPI * w.usCPI
        + scores.canCPI * w.canCPI + scores.canGDP * w.canGDP + scores.vix * w.vix
        + scores.yieldCurve * w.yieldCurve + scores.creditSpread * w.creditSpread,
       w.unemployment + w.usCPI + w.canCPI + w.canGDP + w.vix
        + w.yieldCurve + w.creditSpread)
  if totalWsum.2 ≠ 0 then totalWsum.1 / totalWsum.2 else 0

/-- The seven-bucket step function of `calcDelta`
(`googleSheetsHelper.v2.js`, lines 356-363). -/
def bucketShift (regionScore : ℚ) : ℚ :=
  if (3/2 : ℚ) ≤ regionScore then 2/25
  else if (3/4 : ℚ) ≤ regionScore then 1/20
  else if (1/4 : ℚ) ≤ regionScore then 1/40
  else if (-1/4 : ℚ) ≤ regionScore then 0
  else if (-3/4 : ℚ) ≤ regionScore then -1/40
  else if (-3/2 : ℚ) ≤ regionScore then -1/20
  else -2/25

/-- The shift of `calcDelta` before the class-based negation
(`googleSheetsHelper.v2.js`, lines 354-368): bucket value times
`sensMap[t]` (`NaN` when the ticker has no metadata row), then the 0.7
volatility dampener when enabled and `scores.vix < -1`. -/
def preClassShift (regionScore : ℚ) (sens : JVal) (vixScore : ℚ)
    (cfg : EngineConfig) : JVal :=
  let shift := jmul (num (bucketShift regionScore)) sens
  if cfg.REBALANCING.volatilityAdjustment ∧ vixScore < -1 then
    jmul shift (num (7/10))
  else shift

/-- `calcDelta` of `googleSheetsHelper.v2.js` (lines 354-370),
parameterized by the looked-up per-ticker values:
`classMap[t] === 'Defensive' ? -shift : shift`. -/
def calcDelta (regionScore : ℚ) (sens : JVal) (vixScore : ℚ)
    (cfg : EngineConfig) (assetClass : Option String) : JVal :=
  if assetClass = some "Defensive" then jneg (preClassShift regionScore sens vixScore cfg)
  else preClassShift regionScore sens vixScore cfg

/-- JS object write `m[k] = v`: overwrite the binding if the key exists,
append it otherwise. -/
def objSet {α : Type} : List (String × α) → String → α → List (String × α)
  | [], k, v => [(k, v)]
  | (k', v') :: rest, k, v =>
      if k' = k then (k, v) :: rest else (k', v') :: objSet rest k v

/-- JS object read `m[k]` feeding arithmetic: a missing key is
`undefined`, which becomes `NaN`. -/
def jRead (m : List (String × JVal)) (k : String) : JVal :=
  (List.lookup k m).getD nan

/-- JS object read `m[k]` for the allocation map at a key known to be
present (every ticker iterated over was inserted together with its
allocation); the default is never taken. -/
def qRead (m : List (String × ℚ)) (k : String) : ℚ :=
  (List.lookup k m).getD 0

/-- JS compound assignment `m[k] += c` on a map of numbers (on a missing
key `undefined + c` is `NaN`). -/
def objAddJ : List (String × JVal) → String → JVal → List (String × JVal)
  | [], k, c => [(k, jadd nan c)]
  | (k', v') :: rest, k, c =>
      if k' = k then (k, jadd v' c) :: rest else (k', v') :: objAddJ rest k c

/-- `ts.forEach(t => rawDelta[t] += c)`. -/
def bumpAll (rd : List (String × JVal)) (ts : List String) (c : JVal) :
    List (String × JVal) :=
  ts.foldl (fun m t => objAddJ m t c) rd

/-- `net += rawDelta[t] * allocMap[t]` accumulated over a ticker list. -/
def netFold (allocMap : List (String × ℚ)) (rd : List (String × JVal))
    (ts : List String) : JVal :=
  ts.foldl (fun n t => jadd n (jmul (jRead rd t) (num (qRead allocMap t)))) (num 0)

/-- `defAlloc += allocMap[t]` accumulated over a ticker list. -/
def allocSum (allocMap : List (String × ℚ)) (ts : List String) : ℚ :=
  ts.foldl (fun s t => s + qRead allocMap t) 0

/-- The balance-offset block of `GET_REBALANCE_SIGNAL`
(`googleSheetsHelper.v2.js`, lines 377-386): computes the
allocation-weighted net move over the defensive then the equity list,
and when `|net| > 0.001` spreads `adj = -net / 2` over each bucket in
proportion to nothing but its total allocation, skipping a bucket whose
total allocation is zero (JS truthiness of `defAlloc` / `eqAlloc`). -/
def applyBalanceConstraint (cfg : EngineConfig) (defList eqList : List String)
    (allocMap : List (String × ℚ)) (rawDelta : List (String × JVal)) :
    List (String × JVal) :=
  if cfg.REBALANCING.balanceConstraint then
    let net := netFold allocMap rawDelta (defList ++ eqList)
    let defAlloc := allocSum allocMap defList
    let eqAlloc := allocSum allocMap eqList
    if jltB (num (1/1000)) (jabs net) then
      let adj := jdiv (jneg net) (num 2)
      let rd1 := if defAlloc ≠ 0 then bumpAll rawDelta defList (jdiv adj (num defAlloc))
                 else rawDelta
      if eqAlloc ≠ 0 then bumpAll rd1 eqList (jdiv adj (num eqAlloc)) else rd1
    else rawDelta
  else rawDelta

/-- Two-decimal rendering of a natural number of hundredths. -/
def hundredthsStr (m : ℕ) : String :=
  toString (m / 100) ++ "." ++
    (if m % 100 < 10 then "0" ++ toString (m % 100) else toString (m % 100))

/-- JS `Number.prototype.toFixed(2)`: round to the nearest hundredth,
ties toward `+Infinity`; `NaN.toFixed(2)` is `"NaN"`. -/
def jsToFixed2 : JVal → String
  | nan => "NaN"
  | inf => "Infinity"
  | ninf => "-Infinity"
  | num q =>
      let n : ℤ := ⌊q * 100 + 1/2⌋
      if n < 0 then "-" ++ hundredthsStr n.natAbs else hundredthsStr n.natAbs

/-- The allocation-loading fold of `GET_REBALANCE_SIGNAL`
(`googleSheetsHelper.v2.js`, lines 316-322): a row contributes exactly
when its ticker is truthy (non-empty) and the parsed value is not `NaN`;
ticker order (with duplicates) is kept in the second component. -/
def loadAllocations (allocRows : List (String × Cell)) :
    List (String × ℚ) × List String :=
  allocRows.foldl
    (fun acc r =>
      match parseAllocV2 r.2 with
      | some a => if r.1 ≠ "" then (objSet acc.1 r.1 a, acc.2 ++ [r.1]) else acc
      | none => acc)
    ([], [])

/-- `classMap` built from the Asset Metadata rows
(ticker, class, region, sensitivity cell). -/
def mkClassMap (metaRows : List (String × String × String × Cell)) :
    List (String × String) :=
  metaRows.foldl (fun m r => objSet m r.1 r.2.1) []

/-- `regionMap` built from the Asset Metadata rows. -/
def mkRegionMap (metaRows : List (String × String × String × Cell)) :
    List (String × String) :=
  metaRows.foldl (fun m r => objSet m r.1 r.2.2.1) []

/-- `sensMap` built from the Asset Metadata rows. -/
def mkSensMap (metaRows : List (String × String × String × Cell)) :
    List (String × ℚ) :=
  metaRows.foldl (fun m r => objSet m r.1 (parseSens r.2.2.2)) []

/-- The tickers classified as Defensive (`classMap[t] === 'Defensive'`),
in allocation order. -/
def defTickers (tickers : List String) (classMap : List (String × String)) :
    List String :=
  tickers.filter (fun t => List.lookup t classMap = some "Defensive")

/-- The tickers classified as growth/equity: everything that is not
exactly Defensive, including tickers with no metadata row
(`googleSheetsHelper.v2.js`, line 374, the `else` branch). -/
def eqTickers (tickers : List String) (classMap : List (String × String)) :
    List String :=
  tickers.filter (fun t => ¬ List.lookup t classMap = some "Defensive")

/-- `GET_REBALANCE_SIGNAL` of `googleSheetsHelper.v2.js` (lines 310-399),
embedded as a function of the two sheets' rows, the already-computed
market scores and the configuration.  `Except.error` models `throw`.
The per-ticker lookups feeding `calcDelta` are `sensMap[t]`
(`undefined`, i.e. `NaN`, without a metadata row), `regionMap[t]` and
`classMap[t]`. -/
def GET_REBALANCE_SIGNAL (allocRows : List (String × Cell))
    (metaRows : List (String × String × String × Cell))
    (scores : Scores) (cfg : EngineConfig) (assetTicker : String) :
    Except String String :=
  let loaded := loadAllocations allocRows
  let allocMap := loaded.1
  let tickers := loaded.2
  let classMap := mkClassMap metaRows
  let regionMap := mkRegionMap metaRows
  let sensMap := mkSensMap metaRows
  if (List.lookup assetTicker classMap).isNone then
    Except.error ("No metadata for " ++ assetTicker)
  else
    let deltaOf := fun t =>
      calcDelta (getRegionalScore (List.lookup t regionMap) scores cfg)
        ((List.lookup t sensMap).elim nan num) scores.vix cfg
        (List.lookup t classMap)
    let rawDelta :=
      tickers.foldl (fun m t => objSet m t (deltaOf t)) ([] : List (String × JVal))
    let defList := defTickers tickers classMap
    let eqList := eqTickers tickers classMap
    let rawDelta := applyBalanceConstraint cfg defList eqList allocMap rawDelta
    let sumNew :=
      tickers.foldl
        (fun s t =>
          jadd s (jmax (num 0) (jmul (num (qRead allocMap t))
            (jadd (num 1) (jRead rawDelta t)))))
        (num 0)
    let oldA := (List.lookup assetTicker allocMap).elim nan num
    let newA := jdiv (jmax (num 0) (jmul oldA (jadd (num 1) (jRead rawDelta assetTicker))))
      sumNew
    let finalD := jsub (jdiv newA oldA) (num 1)
    if jltB (jabs finalD) (num cfg.REBALANCING.minThreshold) then Except.ok "Hold"
    else if jltB (num 0) finalD then
      Except.ok ("Increase " ++ jsToFixed2 (jmul finalD (num 100)) ++ "%")
    else
      Except.ok ("Decrease " ++ jsToFixed2 (jmul (jabs finalD) (num 100)) ++ "%")

/-- The finite value of a JS number (`0` for the special values); used to
state what the reconciler computes when every delta involved is finite. -/
def jToQ : JVal → ℚ
  | num q => q
  | _ => 0

/-- The rational value of `netFold` when every delta involved is finite. -/
def qNetSum (allocMap : List (String × ℚ)) (rd : List (String × JVal))
    (ts : List String) : ℚ :=
  (ts.map (fun t => jToQ (jRead rd t) * qRead allocMap t)).sum

/-! ### Basic facts about the JS-number operations -/

theorem clamp2_of_ne_nan (z : JVal) (hz : z ≠ nan) :
    ∃ q : ℚ, clamp2 z = num q ∧ -2 ≤ q ∧ q ≤ 2 := by
  cases z with
  | nan => exact absurd rfl hz
  | inf =>
      refine ⟨max (-2) 2, rfl, le_max_left _ _, ?_⟩
      exact max_le (by norm_num) le_rfl
  | ninf => exact ⟨-2, rfl, le_rfl, by norm_num⟩
  | num q =>
      refine ⟨max (-2) (min 2 q), rfl, le_max_left _ _, ?_⟩
      exact max_le (by norm_num) (min_le_left _ _)

theorem jTruthy_ne_nan {z : JVal} (h : jTruthy z = true) : z ≠ nan := by
  cases z <;> simp_all [jTruthy]

theorem jmul_num_ne_nan {z : JVal} (hz : z ≠ nan) {c : ℚ} (hc : c ≠ 0) :
    jmul z (num c) ≠ nan := by
  rcases lt_trichotomy c 0 with h | h | h
  · cases z with
    | nan => exact absurd rfl hz
    | inf => simp [jmul, h, not_lt_of_gt h]
    | ninf => simp [jmul, h, not_lt_of_gt h]
    | num a => simp [jmul]
  · exact absurd h hc
  · cases z with
    | nan => exact absurd rfl hz
    | inf => simp [jmul, h]
    | ninf => simp [jmul, h]
    | num a => simp [jmul]

theorem jsgn_ne_nan {z : JVal} (hz : z ≠ nan) : jsgn z ≠ nan := by
  cases z with
  | nan => exact absurd rfl hz
  | inf => simp [jsgn]
  | ninf => simp [jsgn]
  | num q => simp only [jsgn]; split_ifs <;> simp

theorem jsub_num_ne_nan (x : ℚ) {z : JVal} (hz : z ≠ nan) :
    jsub (num x) z ≠ nan := by
  cases z <;> simp_all [jsub, jadd, jneg]

theorem jadd_num_ne_nan (x : ℚ) {z : JVal} (hz : z ≠ nan) :
    jadd (num x) z ≠ nan := by
  cases z <;> simp_all [jadd]

/-! ### C6 — clamp invariant of the indicator scorers -/

/-- C6: for every configured threshold set and every current value,
history (hence every trend value the estimator can produce) and region,
each of the seven indicator scorers — unemployment, CPI (used for both
the domestic and the foreign reading), volatility, GDP direction,
yield-curve and credit spread — returns a score in `[-2, 2]`. -/
theorem indicator_scores_bounded (cfg : ScoreConfig) (curr : Option ℚ)
    (gdpCurr : Option String) (hist : Option (List ℚ)) (region : String) :
    (∃ q : ℚ, (calculateUnemploymentScore curr hist cfg).score = num q ∧ -2 ≤ q ∧ q ≤ 2) ∧
    (∃ q : ℚ, (calculateCPIScore curr hist region cfg).score = num q ∧ -2 ≤ q ∧ q ≤ 2) ∧
    (∃ q : ℚ, (calculateVIXScore curr hist cfg).score = num q ∧ -2 ≤ q ∧ q ≤ 2) ∧
    (∃ q : ℚ, (calculateGDPScore gdpCurr).score = num q ∧ -2 ≤ q ∧ q ≤ 2) ∧
    (∃ q : ℚ, (calculateYieldScore curr hist cfg).score = num q ∧ -2 ≤ q ∧ q ≤ 2) ∧
    (∃ q : ℚ, (calculateCreditScore curr hist cfg).score = num q ∧ -2 ≤ q ∧ q ≤ 2) := by
  have hB : ∀ (base : ℚ) (adj : JVal) (f : ℚ) (hf : f ≠ 0),
      (if jTruthy adj then jsub (num base) (jmul adj (num f)) else num base) ≠ nan := by
    intro base adj f hf
    by_cases h : jTruthy adj = true
    · simpa [h] using jsub_num_ne_nan base (jmul_num_ne_nan (jTruthy_ne_nan h) hf)
    · simp [h]
  refine ⟨?_, ?_, ?_, ?_, ?_, ?_⟩
  · cases curr with
    | none => exact ⟨0, rfl, by norm_num, by norm_num⟩
    | some c =>
        exact clamp2_of_ne_nan _ (hB _ (calculateTrend hist cfg.trendPeriods) (1/2) (by norm_num))
  · cases curr with
    | none => exact ⟨0, rfl, by norm_num, by norm_num⟩
    | some c =>
        refine clamp2_of_ne_nan _ ?_
        by_cases h : jTruthy (calculateTrend hist cfg.trendPeriods) = true
        · simpa [h] using
            jsub_num_ne_nan _ (jmul_num_ne_nan (jsgn_ne_nan (jTruthy_ne_nan h)) (c := 3/10) (by norm_num))
        · simp [h]
  · cases curr with
    | none => exact ⟨0, rfl, by norm_num, by norm_num⟩
    | some c =>
        exact clamp2_of_ne_nan _ (hB _ (calculateTrend hist cfg.trendPeriods) (2/5) (by norm_num))
  · cases gdpCurr with
    | none => exact ⟨0, rfl, by norm_num, by norm_num⟩
    | some s =>
        by_cases hs : s = ""
        · exact ⟨0, by simp [calculateGDPScore, hs], by norm_num, by norm_num⟩
        · by_cases h1 : (["rising", "positive", "increasing", "expanding"].any
              (fun w => jsIncludes w.data s.toLower.data)) = true
          · exact ⟨1, by simp [calculateGDPScore, hs, h1], by norm_num, by norm_num⟩
          · by_cases h2 : (["falling", "negative", "decreasing", "contracting"].any
                (fun w => jsIncludes w.data s.toLower.data)) = true
            · exact ⟨-1, by simp [calculateGDPScore, hs, h1, h2], by norm_num, by norm_num⟩
            · exact ⟨0, by simp [calculateGDPScore, hs, h1, h2], by norm_num, by norm_num⟩
  · cases curr with
    | none => exact ⟨0, rfl, by norm_num, by norm_num⟩
    | some c =>
        refine clamp2_of_ne_nan _ ?_
        by_cases h : jTruthy (calculateTrend hist cfg.trendPeriods) = true
        · simpa [h] using
            jadd_num_ne_nan _ (jmul_num_ne_nan (jTruthy_ne_nan h) (c := 3/10) (by norm_num))
        · simp [h]
  · cases curr with
    | none => exact ⟨0, rfl, by norm_num, by norm_num⟩
    | some c =>
        exact clamp2_of_ne_nan _ (hB _ (calculateTrend hist cfg.trendPeriods) (2/5) (by norm_num))

/-! ### C8 — the no-data result and its field name -/

/-- C8 (code bug): with a null current value every scorer does return
score `0`, but in `googleSheetsHelper.v2.js` the `"No data"` string is
stored under the field `desc` (the no-data branches read
`return { score:0, desc:'No data' }`), while every other branch of the
same functions — and the older revision in `src/unnamed/part_000` —
uses `description`.  The `description` field of the no-data result is
therefore undefined, contradicting the claim. -/
theorem noData_score_zero_but_desc_field :
    ((calculateUnemploymentScore none none defaultScoreConfig).score = num 0 ∧
      (calculateUnemploymentScore none none defaultScoreConfig).desc = some "No data" ∧
      (calculateUnemploymentScore none none defaultScoreConfig).description = none) ∧
    ((calculateCPIScore none none "US" defaultScoreConfig).score = num 0 ∧
      (calculateCPIScore none none "US" defaultScoreConfig).desc = some "No data" ∧
      (calculateCPIScore none none "US" defaultScoreConfig).description = none) ∧
    ((calculateVIXScore none none defaultScoreConfig).score = num 0 ∧
      (calculateVIXScore none none defaultScoreConfig).desc = some "No data" ∧
      (calculateVIXScore none none defaultScoreConfig).description = none) ∧
    ((calculateGDPScore none).score = num 0 ∧
      (calculateGDPScore none).desc = some "No data" ∧
      (calculateGDPScore none).description = none) ∧
    ((calculateYieldScore none none defaultScoreConfig).score = num 0 ∧
      (calculateYieldScore none none defaultScoreConfig).desc = some "No data" ∧
      (calculateYieldScore none none defaultScoreConfig).description = none) ∧
    ((calculateCreditScore none none defaultScoreConfig).score = num 0 ∧
      (calculateCreditScore none none defaultScoreConfig).desc = some "No data" ∧
      (calculateCreditScore none none defaultScoreConfig).description = none) :=
  ⟨⟨rfl, rfl, rfl⟩, ⟨rfl, rfl, rfl⟩, ⟨rfl, rfl, rfl⟩,
    ⟨rfl, rfl, rfl⟩, ⟨rfl, rfl, rfl⟩, ⟨rfl, rfl, rfl⟩⟩

/-! ### C4 — trend on insufficient history -/

/-- C4: with `series.length ≤ periods` (equivalently below the
`periods + 1` minimum) the trend estimator returns exactly `0`, in both
revisions of `calculateTrend`. -/
theorem trend_insufficient_history_returns_zero (hist : List ℚ) (periods : ℕ)
    (h : hist.length ≤ periods) :
    calculateTrend (some hist) periods = num 0 ∧
    calculateTrendV1 (some hist) periods = num 0 := by
  constructor
  · simp only [calculateTrend]
    rw [if_pos (by omega : hist.length < periods + 1)]
  · simp only [calculateTrendV1]
    by_cases h2 : hist.length < 2
    · rw [if_pos h2]
    · rw [if_neg h2]
      have hm : min periods hist.length = hist.length := min_eq_right h
      have hne : ¬ hist.length = 0 := by omega
      simp only [hm, hne, if_false, Nat.sub_self, List.take_zero, List.length_nil,
        if_true]

/-- Witness for C4 at a concrete input. -/
theorem trend_insufficient_history_returns_zero_witness :
    calculateTrend (some [1, 2]) 5 = num 0 ∧
    calculateTrendV1 (some [1, 2]) 5 = num 0 :=
  trend_insufficient_history_returns_zero [1, 2] 5 (by norm_num)

/-! ### C3 — trend when the older prefix averages to zero -/

theorem jdiv_num_zero_of_pos {a : ℚ} (h : 0 < a) : jdiv (num a) (num 0) = inf := by
  simp [jdiv, h]

theorem jdiv_num_zero_of_neg {a : ℚ} (h : a < 0) : jdiv (num a) (num 0) = ninf := by
  simp [jdiv, h, not_lt_of_gt h]

theorem saturate_inf : jmax (num (-1)) (jmin (num 1) (jmul inf (num 10))) = num 1 := by
  norm_num [jmul, jmin, jmax]

theorem saturate_ninf : jmax (num (-1)) (jmin (num 1) (jmul ninf (num 10))) = num (-1) := by
  norm_num [jmul, jmin, jmax]

/-- C3 counterexample: the series `[0, 0, 1, 1, 1]` with `periods = 3`
has sufficient length and an older prefix (`[0, 0]`) averaging to zero,
yet `calculateTrend` returns `1`, not `0` — there is no
`avg(older) == 0` guard in the code; the division produces `Infinity`
and the clamp turns it into `1`. -/
theorem trend_zero_older_average_counterexample :
    3 + 1 ≤ ([0, 0, 1, 1, 1] : List ℚ).length ∧
    (([0, 0, 1, 1, 1] : List ℚ).take (([0, 0, 1, 1, 1] : List ℚ).length - 3)).sum = 0 ∧
    calculateTrend (some [0, 0, 1, 1, 1]) 3 = num 1 ∧
    ¬ calculateTrend (some [0, 0, 1, 1, 1]) 3 = num 0 := by
  refine ⟨by norm_num, by norm_num, ?_, ?_⟩ <;>
    norm_num [calculateTrend, listAvg, jdiv, jmul, jmin, jmax]

/-- C3 as amended: for `series.length ≥ periods + 1` (with `periods ≥ 1`)
and `avg(older) = 0`, the estimator does not return `0`: the division by
zero propagates and the `×10`-clamp saturates it to `1` when
`avg(recent) > 0`, to `-1` when `avg(recent) < 0`, and to `NaN` when
`avg(recent) = 0` as well. -/
theorem trend_zero_older_average_saturates (hist : List ℚ) (periods : ℕ)
    (hp : 1 ≤ periods) (hlen : periods + 1 ≤ hist.length)
    (hold : (hist.take (hist.length - periods)).sum = 0) :
    calculateTrend (some hist) periods =
      (if 0 < (hist.drop (hist.length - periods)).sum then num 1
       else if (hist.drop (hist.length - periods)).sum < 0 then num (-1)
       else nan) := by
  simp only [calculateTrend]
  rw [if_neg (by omega : ¬ hist.length < periods + 1)]
  have hp0 : ¬ periods = 0 := by omega
  simp only [hp0, if_false]
  have htl : (hist.take (hist.length - periods)).length = hist.length - periods := by
    rw [List.length_take]; omega
  rw [if_neg (by rw [htl]; omega : ¬ (hist.take (hist.length - periods)).length = 0)]
  have havgO : listAvg (hist.take (hist.length - periods)) = 0 := by
    rw [listAvg, hold]; simp
  rw [havgO, sub_zero]
  have hrl : (hist.drop (hist.length - periods)).length = periods := by
    rw [List.length_drop]; omega
  have hpq : (0 : ℚ) < (periods : ℕ) := by exact_mod_cast Nat.pos_of_ne_zero (by omega)
  have havgR : listAvg (hist.drop (hist.length - periods)) =
      (hist.drop (hist.length - periods)).sum / (periods : ℚ) := by
    rw [listAvg, hrl]
  rcases lt_trichotomy 0 (hist.drop (hist.length - periods)).sum with hpos | hzero | hneg
  · rw [if_pos hpos, havgR, jdiv_num_zero_of_pos (div_pos hpos hpq), saturate_inf]
  · rw [if_neg (by rw [← hzero]; exact lt_irrefl 0),
      if_neg (by rw [← hzero]; exact lt_irrefl 0), havgR, ← hzero, zero_div]
    norm_num [jdiv, jmul, jmin, jmax]
  · rw [if_neg hneg.asymm, if_pos hneg, havgR,
      jdiv_num_zero_of_neg (div_neg_of_neg_of_pos hneg hpq), saturate_ninf]

/-- Witness for the amended C3 at a concrete input. -/
theorem trend_zero_older_average_saturates_witness :
    calculateTrend (some [0, 0, 1, 1, 1]) 3 =
      (if 0 < (([0, 0, 1, 1, 1] : List ℚ).drop
          (([0, 0, 1, 1, 1] : List ℚ).length - 3)).sum then num 1
       else if (([0, 0, 1, 1, 1] : List ℚ).drop
          (([0, 0, 1, 1, 1] : List ℚ).length - 3)).sum < 0 then num (-1)
       else nan) :=
  trend_zero_older_average_saturates [0, 0, 1, 1, 1] 3 (by norm_num) (by norm_num)
    (by norm_num)

/-! ### C5 — class-based negation of the raw delta -/

/-- C5: `calcDelta` negates the sensitivity-scaled, volatility-dampened
base shift exactly when the asset class is the string `Defensive`; any
other class keeps the sign of the seven-bucket step function, so for a
growth-seeking asset (with non-negative sensitivity, as the data model
requires) a negative regional score yields a non-positive raw delta. -/
theorem calcDelta_negates_exactly_defensive (rs s vix : ℚ) (cfg : EngineConfig)
    (cls : Option String) (hs : 0 ≤ s) :
    (cls ≠ some "Defensive" →
      calcDelta rs (num s) vix cfg (some "Defensive") =
        jneg (calcDelta rs (num s) vix cfg cls)) ∧
    (rs < 0 → bucketShift rs ≤ 0) ∧
    (cls ≠ some "Defensive" → rs < 0 →
      ∃ q : ℚ, calcDelta rs (num s) vix cfg cls = num q ∧ q ≤ 0) := by
  have hbs : rs < 0 → bucketShift rs ≤ 0 := by
    intro hrs
    unfold bucketShift
    split_ifs <;> linarith
  refine ⟨?_, hbs, ?_⟩
  · intro hcls
    rw [calcDelta, calcDelta, if_pos rfl, if_neg hcls]
  · intro hcls hrs
    rw [calcDelta, if_neg hcls]
    unfold preClassShift
    have hmul : jmul (num (bucketShift rs)) (num s) = num (bucketShift rs * s) := rfl
    split_ifs with hv
    · exact ⟨bucketShift rs * s * (7/10), by rw [hmul]; rfl,
        mul_nonpos_of_nonpos_of_nonneg
          (mul_nonpos_of_nonpos_of_nonneg (hbs hrs) hs) (by norm_num)⟩
    · exact ⟨bucketShift rs * s, hmul,
        mul_nonpos_of_nonpos_of_nonneg (hbs hrs) hs⟩

/-- Witness for C5 at a concrete input. -/
theorem calcDelta_negates_exactly_defensive_witness :
    (calcDelta (-1) (num 1) 0 CONFIG (some "Defensive") =
      jneg (calcDelta (-1) (num 1) 0 CONFIG (some "Equity"))) ∧
    bucketShift (-1) ≤ 0 ∧
    (∃ q : ℚ, calcDelta (-1) (num 1) 0 CONFIG (some "Equity") = num q ∧ q ≤ 0) := by
  have h := calcDelta_negates_exactly_defensive (-1) 1 0 CONFIG (some "Equity") (by norm_num)
  exact ⟨h.1 (by simp), h.2.1 (by norm_num), h.2.2 (by simp) (by norm_num)⟩

/-! ### C9 — allocation parsing of percentage strings vs bare numbers -/

theorem stripFirstPct_append_pct (l : List Char) (h : '%' ∉ l) :
    stripFirstPct (l ++ ['%']) = l := by
  induction l with
  | nil => rfl
  | cons c cs ih =>
      have hc : ¬ c = '%' := fun hc => h (hc ▸ List.mem_cons_self c cs)
      simp only [List.cons_append, stripFirstPct, if_neg hc]
      exact congrArg (c :: ·) (ih (fun hm => h (List.mem_cons_of_mem c hm)))

/-- C9 counterexample: in `googleSheetsHelper.v2.js` the percentage
string `"50%"` parses to the allocation `0.5`, while the equivalent bare
decimal fraction `0.5` parses to `0.005` — every cell is divided by 100,
so a bare fraction is *not* canonicalized consistently with its
percentage-styled form. -/
theorem alloc_parsing_inconsistent_counterexample :
    parseAllocV2 (Cell.str "50%") = some (1/2) ∧
    parseAllocV2 (Cell.num (1/2)) = some (1/200) ∧
    ¬ ((1 : ℚ)/2 = 1/200) := by
  refine ⟨?_, ?_, by norm_num⟩
  · simp +decide [parseAllocV2, jsParseFloat, natOfDigits, stripFirstPct,
      List.dropWhile, List.takeWhile]
    norm_num
  · simp only [parseAllocV2]
    norm_num

/-- C9 as amended: the v2 parser treats the string `"X%"` and the *bare
number X* identically (both become `X / 100`, in `[0, 1]` exactly when
`X ≤ 100`); the bare decimal fraction `X / 100` instead becomes
`X / 10000`. -/
theorem alloc_parsing_pct_equals_bare_number (s : String) (X : ℚ)
    (hpct : '%' ∉ s.data) (hparse : jsParseFloat s = some X) :
    parseAllocV2 (Cell.str (s ++ "%")) = some (X/100) ∧
    parseAllocV2 (Cell.num X) = some (X/100) ∧
    parseAllocV2 (Cell.num (X/100)) = some (X/10000) ∧
    (0 ≤ X → X ≤ 100 → 0 ≤ X/100 ∧ X/100 ≤ 1) := by
  refine ⟨?_, rfl, ?_, ?_⟩
  · have hdat : (s ++ "%").data = s.data ++ ['%'] := by
      rw [String.data_append]
    simp only [parseAllocV2, hdat, stripFirstPct_append_pct s.data hpct]
    have : String.mk s.data = s := rfl
    rw [this, hparse]
    rfl
  · simp only [parseAllocV2, Option.some.injEq]
    ring
  · intro h0 h100
    constructor
    · positivity
    · rw [div_le_one (by norm_num)]; exact h100

/-- Witness for the amended C9 at a concrete input. -/
theorem alloc_parsing_pct_equals_bare_number_witness :
    parseAllocV2 (Cell.str ("50" ++ "%")) = some (50/100) ∧
    parseAllocV2 (Cell.num 50) = some (50/100) ∧
    parseAllocV2 (Cell.num (50/100)) = some (50/10000) ∧
    (0 ≤ (50:ℚ)/100 ∧ (50:ℚ)/100 ≤ 1) := by
  have h := alloc_parsing_pct_equals_bare_number "50" 50 (by decide)
    (by simp +decide [jsParseFloat, natOfDigits, List.dropWhile, List.takeWhile])
  exact ⟨h.1, h.2.1, h.2.2.1, h.2.2.2 (by norm_num) (by norm_num)⟩

/-! ### C7 — unknown ticker fails loudly -/

/-- C7: when the requested ticker has no row in the Asset Metadata sheet,
`GET_REBALANCE_SIGNAL` throws (`Except.error`) its `No metadata` error
before computing anything and never returns a signal string. -/
theorem unknown_ticker_rejected (allocRows : List (String × Cell))
    (metaRows : List (String × String × String × Cell))
    (scores : Scores) (cfg : EngineConfig) (t : String)
    (h : List.lookup t (mkClassMap metaRows) = none) :
    GET_REBALANCE_SIGNAL allocRows metaRows scores cfg t =
      Except.error ("No metadata for " ++ t) := by
  simp only [GET_REBALANCE_SIGNAL, h, Option.isNone_none, if_true]

/-- Witness for C7 at a concrete input. -/
theorem unknown_ticker_rejected_witness :
    GET_REBALANCE_SIGNAL [("CASH.TO", Cell.str "25%")] [] ⟨0, 0, 0, 0, 0, 0, 0⟩
      CONFIG "XYZ" = Except.error ("No metadata for " ++ "XYZ") :=
  unknown_ticker_rejected [("CASH.TO", Cell.str "25%")] [] ⟨0, 0, 0, 0, 0, 0, 0⟩
    CONFIG "XYZ" rfl

/-! ### C2 — zero or missing allocation for the requested ticker -/

/-- C2 (code bug): with a zero current allocation for the requested
ticker — and likewise with the ticker absent from the allocation table —
`GET_REBALANCE_SIGNAL` does *not* surface an error: the division
`newA / oldA` yields `NaN`, both threshold comparisons on `NaN` are
false, and the formatter happily returns the signal string
`"Decrease NaN%"`.  The spec (§7) requires an explicit error here. -/
theorem zero_allocation_returns_decrease_nan :
    GET_REBALANCE_SIGNAL [("CASH.TO", Cell.str "0%")]
      [("CASH.TO", "Defensive", "Global", Cell.num 1)]
      ⟨0, 0, 0, 0, 0, 0, 0⟩ CONFIG "CASH.TO" = Except.ok "Decrease NaN%" ∧
    GET_REBALANCE_SIGNAL [("XEQT.TO", Cell.str "100%")]
      [("CASH.TO", "Defensive", "Global", Cell.num 1),
       ("XEQT.TO", "Equity", "Global", Cell.num 1)]
      ⟨0, 0, 0, 0, 0, 0, 0⟩ CONFIG "CASH.TO" = Except.ok "Decrease NaN%" := by
  constructor <;>
    simp +decide [GET_REBALANCE_SIGNAL, loadAllocations, parseAllocV2, jsParseFloat,
      natOfDigits, stripFirstPct, List.dropWhile, List.takeWhile, mkClassMap, mkRegionMap,
      mkSensMap, parseSens, objSet, defTickers, eqTickers, applyBalanceConstraint,
      netFold, allocSum, bumpAll, objAddJ, jRead, qRead, getRegionalScore, calcDelta,
      preClassShift, bucketShift, CONFIG, jltB, jabs, jadd, jmul, jdiv, jmax, jmin, jneg,
      jsub, jsToFixed2, List.lookup]

/-! ### C10 — everything that is not exactly Defensive is growth -/

/-- C10: a ticker whose looked-up class is anything but the exact string
`Defensive` — including a missing class or no metadata row at all
(`none`) — is treated as growth-seeking: its delta is the un-negated
shift, it lands in the equity bucket used by the reconciler, and the
fatal metadata-presence check applies only to the requested ticker (the
engine still returns a signal string when other allocated tickers lack
metadata). -/
theorem non_defensive_treated_as_growth :
    (∀ (rs : ℚ) (sens : JVal) (vix : ℚ) (cfg : EngineConfig) (cls : Option String),
      cls ≠ some "Defensive" →
        calcDelta rs sens vix cfg cls = preClassShift rs sens vix cfg) ∧
    (∀ (tickers : List String) (cm : List (String × String)) (t : String),
      t ∈ tickers → ¬ List.lookup t cm = some "Defensive" →
        t ∈ eqTickers tickers cm) ∧
    (∀ (allocRows : List (String × Cell))
        (metaRows : List (String × String × String × Cell))
        (scores : Scores) (cfg : EngineConfig) (t : String),
      (List.lookup t (mkClassMap metaRows)).isSome →
        ∃ s, GET_REBALANCE_SIGNAL allocRows metaRows scores cfg t = Except.ok s) := by
  refine ⟨?_, ?_, ?_⟩
  · intro rs sens vix cfg cls hcls
    rw [calcDelta, if_neg hcls]
  · intro tickers cm t ht hcls
    simp [eqTickers, List.mem_filter, ht, hcls]
  · intro allocRows metaRows scores cfg t h
    simp only [GET_REBALANCE_SIGNAL]
    rw [if_neg (by simp only [Option.isNone_iff_eq_none]
                   exact Option.isSome_iff_ne_none.mp h)]
    split_ifs <;> exact ⟨_, rfl⟩

/-- Witness for C10 at concrete inputs: a ticker with no metadata row
gets the un-negated shift, lands in the equity bucket, and the engine
still produces a signal when a non-requested allocated ticker
(`NVDA.TO`) has no metadata. -/
theorem non_defensive_treated_as_growth_witness :
    calcDelta 0 (num 1) 0 CONFIG none = preClassShift 0 (num 1) 0 CONFIG ∧
    "NVDA.TO" ∈ eqTickers ["CASH.TO", "NVDA.TO"] [("CASH.TO", "Defensive")] ∧
    (∃ s, GET_REBALANCE_SIGNAL
        [("CASH.TO", Cell.num 1), ("NVDA.TO", Cell.num 1)]
        [("CASH.TO", "Defensive", "Global", Cell.num 1)]
        ⟨0, 0, 0, 0, 0, 0, 0⟩ CONFIG "CASH.TO" = Except.ok s) := by
  have h := non_defensive_treated_as_growth
  exact ⟨h.1 0 (num 1) 0 CONFIG none (by simp),
    h.2.1 ["CASH.TO", "NVDA.TO"] [("CASH.TO", "Defensive")] "NVDA.TO"
      (by decide) (by decide),
    h.2.2 [("CASH.TO", Cell.num 1), ("NVDA.TO", Cell.num 1)]
      [("CASH.TO", "Defensive", "Global", Cell.num 1)]
      ⟨0, 0, 0, 0, 0, 0, 0⟩ CONFIG "CASH.TO" (by decide)⟩

theorem jRead_objAddJ (m : List (String × JVal)) (k k' : String) (c : JVal) :
    jRead (objAddJ m k c) k' = if k' = k then jadd (jRead m k') c else jRead m k' := by
  induction m with
  | nil =>
      by_cases h : k' = k
      · simp [objAddJ, jRead, List.lookup_cons, h]
      · simp [objAddJ, jRead, List.lookup_cons, h, beq_false_of_ne h]
  | cons hd tl ih =>
      obtain ⟨k0, v0⟩ := hd
      by_cases h0 : k0 = k
      · subst h0
        by_cases h1 : k' = k0
        · subst h1
          simp [objAddJ, jRead, List.lookup_cons]
        · simp [objAddJ, jRead, List.lookup_cons, beq_false_of_ne h1, h1]
      · by_cases h1 : k' = k0
        · subst h1
          simp [objAddJ, h0, jRead, List.lookup_cons]
        · simp only [objAddJ, if_neg h0, jRead, List.lookup_cons,
            beq_false_of_ne h1]
          simpa [jRead] using ih

theorem jRead_bumpAll_not_mem (rd : List (String × JVal)) (ts : List String)
    (c : JVal) (k : String) (hk : k ∉ ts) :
    jRead (bumpAll rd ts c) k = jRead rd k := by
  induction ts generalizing rd with
  | nil => rfl
  | cons t ts ih =>
      have hkt : ¬ k = t := fun h => hk (h ▸ List.mem_cons_self t ts)
      have hk2 : k ∉ ts := fun h => hk (List.mem_cons_of_mem t h)
      show jRead (bumpAll (objAddJ rd t c) ts c) k = jRead rd k
      rw [ih (objAddJ rd t c) hk2, jRead_objAddJ, if_neg hkt]

theorem jRead_bumpAll_mem (rd : List (String × JVal)) (ts : List String)
    (c : JVal) (k : String) (hnd : ts.Nodup) (hk : k ∈ ts) :
    jRead (bumpAll rd ts c) k = jadd (jRead rd k) c := by
  induction ts generalizing rd with
  | nil => cases hk
  | cons t ts ih =>
      show jRead (bumpAll (objAddJ rd t c) ts c) k = jadd (jRead rd k) c
      rcases List.mem_cons.mp hk with h | h
      · subst h
        rw [jRead_bumpAll_not_mem _ _ _ _ (List.Nodup.not_mem hnd),
          jRead_objAddJ, if_pos rfl]
      · rw [ih (objAddJ rd t c) (List.Nodup.of_cons hnd) h, jRead_objAddJ,
          if_neg (fun he => List.Nodup.not_mem hnd (by rw [← he]; exact h))]

theorem netFold_eq_num (am : List (String × ℚ)) (rd : List (String × JVal))
    (ts : List String) (h : ∀ t ∈ ts, ∃ q : ℚ, jRead rd t = num q) :
    netFold am rd ts = num (qNetSum am rd ts) := by
  suffices H : ∀ (a : ℚ),
      ts.foldl (fun n t => jadd n (jmul (jRead rd t) (num (qRead am t)))) (num a)
        = num (a + qNetSum am rd ts) by
    simpa using H 0
  induction ts with
  | nil => intro a; simp [qNetSum]
  | cons t ts ih =>
      intro a
      obtain ⟨q, hq⟩ := h t (List.mem_cons_self t ts)
      have ih2 := ih (fun u hu => h u (List.mem_cons_of_mem t hu))
      show List.foldl _ (jadd (num a) (jmul (jRead rd t) (num (qRead am t)))) ts = _
      rw [hq]
      show List.foldl _ (num (a + q * qRead am t)) ts = _
      rw [ih2 (a + q * qRead am t)]
      simp only [qNetSum, List.map_cons, List.sum_cons, hq, jToQ]
      rw [add_assoc]

theorem allocSum_eq_sum_map (am : List (String × ℚ)) (ts : List String) :
    allocSum am ts = (ts.map (qRead am)).sum := by
  suffices H : ∀ (a : ℚ),
      ts.foldl (fun s t => s + qRead am t) a = a + (ts.map (qRead am)).sum by
    simpa using H 0
  induction ts with
  | nil => intro a; simp
  | cons t ts ih =>
      intro a
      show List.foldl _ (a + qRead am t) ts = _
      rw [ih (a + qRead am t)]
      simp [add_assoc]

theorem sum_map_shift (ts : List String) (f g : String → ℚ) (c : ℚ) :
    (ts.map (fun t => (f t + c) * g t)).sum
      = (ts.map (fun t => f t * g t)).sum + c * (ts.map g).sum := by
  induction ts with
  | nil => simp
  | cons t ts ih => simp [ih]; ring

/-- C1 as amended: whenever the balance constraint is enabled, the
per-asset deltas are finite, both bucket allocations are non-zero *and
the pre-reconciliation net move exceeds the `0.001` trigger threshold in
absolute value*, the reconciled allocation-weighted sum of deltas over
the full asset universe is within `1e-6` of zero (it is exactly zero in
exact arithmetic); below the trigger the deltas are left unchanged and
the net can stay as large as `0.001`. -/
theorem balance_reconciler_nets_to_zero
    (cfg : EngineConfig) (defList eqList : List String)
    (am : List (String × ℚ)) (rd : List (String × JVal))
    (hbc : cfg.REBALANCING.balanceConstraint = true)
    (hnd : (defList ++ eqList).Nodup)
    (hnum : ∀ t ∈ defList ++ eqList, ∃ q : ℚ, jRead rd t = num q)
    (hda : allocSum am defList ≠ 0) (hea : allocSum am eqList ≠ 0)
    (hnet : 1/1000 < |qNetSum am rd (defList ++ eqList)|) :
    ∃ n : ℚ, netFold am (applyBalanceConstraint cfg defList eqList am rd)
        (defList ++ eqList) = num n ∧ |n| ≤ 1/1000000 := by
  refine ⟨0, ?_, by norm_num⟩
  have hNet : netFold am rd (defList ++ eqList) = num (qNetSum am rd (defList ++ eqList)) :=
    netFold_eq_num am rd _ hnum
  have hguard : jltB (num (1/1000)) (jabs (num (qNetSum am rd (defList ++ eqList)))) = true := by
    simp only [jltB, jabs, decide_eq_true_eq]
    exact hnet
  have hadj : jdiv (jneg (num (qNetSum am rd (defList ++ eqList)))) (num 2)
      = num (-(qNetSum am rd (defList ++ eqList)) / 2) := by
    norm_num [jdiv, jneg]
  have hdD : jdiv (num (-(qNetSum am rd (defList ++ eqList)) / 2)) (num (allocSum am defList))
      = num (-(qNetSum am rd (defList ++ eqList)) / 2 / allocSum am defList) := by
    simp [jdiv, hda]
  have hdE : jdiv (num (-(qNetSum am rd (defList ++ eqList)) / 2)) (num (allocSum am eqList))
      = num (-(qNetSum am rd (defList ++ eqList)) / 2 / allocSum am eqList) := by
    simp [jdiv, hea]
  have habc : applyBalanceConstraint cfg defList eqList am rd
      = bumpAll (bumpAll rd defList
          (num (-(qNetSum am rd (defList ++ eqList)) / 2 / allocSum am defList))) eqList
          (num (-(qNetSum am rd (defList ++ eqList)) / 2 / allocSum am eqList)) := by
    simp only [applyBalanceConstraint, hbc, if_true, hNet, hguard, hadj, hdD, hdE,
      if_pos hda, if_pos hea]
  rw [habc]
  set cD : ℚ := -(qNetSum am rd (defList ++ eqList)) / 2 / allocSum am defList with hcD
  set cE : ℚ := -(qNetSum am rd (defList ++ eqList)) / 2 / allocSum am eqList with hcE
  set rd2 := bumpAll (bumpAll rd defList (num cD)) eqList (num cE) with hrd2
  have hdisj : defList.Disjoint eqList := List.disjoint_of_nodup_append hnd
  have hnddef : defList.Nodup := List.Nodup.of_append_left hnd
  have hndeq : eqList.Nodup := List.Nodup.of_append_right hnd
  have hreadD : ∀ t ∈ defList, jRead rd2 t = num (jToQ (jRead rd t) + cD) := by
    intro t ht
    obtain ⟨q, hq⟩ := hnum t (List.mem_append_left _ ht)
    rw [hrd2, jRead_bumpAll_not_mem _ _ _ _ (hdisj ht),
      jRead_bumpAll_mem _ _ _ _ hnddef ht, hq]
    rfl
  have hreadE : ∀ t ∈ eqList, jRead rd2 t = num (jToQ (jRead rd t) + cE) := by
    intro t ht
    obtain ⟨q, hq⟩ := hnum t (List.mem_append_right _ ht)
    rw [hrd2, jRead_bumpAll_mem _ _ _ _ hndeq ht,
      jRead_bumpAll_not_mem _ _ _ _ (fun hin => hdisj hin ht), hq]
    rfl
  have hnum2 : ∀ t ∈ defList ++ eqList, ∃ q : ℚ, jRead rd2 t = num q := by
    intro t ht
    rcases List.mem_append.mp ht with h | h
    · exact ⟨_, hreadD t h⟩
    · exact ⟨_, hreadE t h⟩
  rw [netFold_eq_num am rd2 _ hnum2]
  have hsplit : ∀ (r : List (String × JVal)),
      qNetSum am r (defList ++ eqList) = qNetSum am r defList + qNetSum am r eqList := by
    intro r
    simp [qNetSum, List.map_append, List.sum_append]
  have hD : qNetSum am rd2 defList = qNetSum am rd defList + cD * allocSum am defList := by
    unfold qNetSum
    have hmap : List.map (fun t => jToQ (jRead rd2 t) * qRead am t) defList
        = List.map (fun t => (jToQ (jRead rd t) + cD) * qRead am t) defList :=
      List.map_congr_left (fun t ht => by
        show jToQ (jRead rd2 t) * qRead am t = (jToQ (jRead rd t) + cD) * qRead am t
        rw [hreadD t ht]
        rfl)
    rw [hmap, sum_map_shift defList (fun t => jToQ (jRead rd t)) (qRead am) cD,
      allocSum_eq_sum_map]
  have hE : qNetSum am rd2 eqList = qNetSum am rd eqList + cE * allocSum am eqList := by
    unfold qNetSum
    have hmap : List.map (fun t => jToQ (jRead rd2 t) * qRead am t) eqList
        = List.map (fun t => (jToQ (jRead rd t) + cE) * qRead am t) eqList :=
      List.map_congr_left (fun t ht => by
        show jToQ (jRead rd2 t) * qRead am t = (jToQ (jRead rd t) + cE) * qRead am t
        rw [hreadE t ht]
        rfl)
    rw [hmap, sum_map_shift eqList (fun t => jToQ (jRead rd t)) (qRead am) cE,
      allocSum_eq_sum_map]
  have hcancD : cD * allocSum am defList = -(qNetSum am rd (defList ++ eqList)) / 2 := by
    rw [hcD, div_mul_cancel₀ _ hda]
  have hcancE : cE * allocSum am eqList = -(qNetSum am rd (defList ++ eqList)) / 2 := by
    rw [hcE, div_mul_cancel₀ _ hea]
  have hfin : qNetSum am rd2 (defList ++ eqList) = 0 := by
    rw [hsplit rd2, hD, hE, hcancD, hcancE, ← sub_eq_zero]
    have := hsplit rd
    linarith
  rw [hfin]

/-! ### C1 — the balance reconciliation invariant -/

/-- C1 counterexample: with both bucket allocations non-zero and a
pre-reconciliation net move of exactly `0.001`, the `|net| > 0.001`
trigger does not fire, the deltas are returned unchanged, and the
allocation-weighted sum stays at `0.001`, far outside the `1e-6`
tolerance the claim asserts for *every* such input. -/
theorem balance_reconciler_dead_zone_counterexample :
    allocSum [("D", (1:ℚ)/2), ("E", (1:ℚ)/2)] ["D"] ≠ 0 ∧
    allocSum [("D", (1:ℚ)/2), ("E", (1:ℚ)/2)] ["E"] ≠ 0 ∧
    applyBalanceConstraint CONFIG ["D"] ["E"] [("D", (1:ℚ)/2), ("E", (1:ℚ)/2)]
      [("D", num ((1:ℚ)/1000)), ("E", num ((1:ℚ)/1000))]
      = [("D", num ((1:ℚ)/1000)), ("E", num ((1:ℚ)/1000))] ∧
    netFold [("D", (1:ℚ)/2), ("E", (1:ℚ)/2)]
      [("D", num ((1:ℚ)/1000)), ("E", num ((1:ℚ)/1000))] (["D"] ++ ["E"])
      = num (1/1000) ∧
    ¬ (|(1:ℚ)/1000| ≤ 1/1000000) := by
  have habs : |(1:ℚ)/1000| = 1/1000 := abs_of_pos (by norm_num)
  refine ⟨?_, ?_, ?_, ?_, ?_⟩ <;>
    norm_num [allocSum, qRead, applyBalanceConstraint, netFold, jRead, jadd, jmul,
      jabs, jltB, List.lookup, decide_eq_true_eq, habs,
      (show (("E" == "D")) = false from rfl), (show (("E" == "E")) = true from rfl),
      (show (("D" == "D")) = true from rfl)]

/-- Witness for the amended C1 at a concrete input. -/
theorem balance_reconciler_nets_to_zero_witness :
    ∃ n : ℚ, netFold [("D", (1:ℚ)/2), ("E", (1:ℚ)/2)]
        (applyBalanceConstraint CONFIG ["D"] ["E"] [("D", (1:ℚ)/2), ("E", (1:ℚ)/2)]
          [("D", num ((1:ℚ)/100)), ("E", num ((1:ℚ)/100))])
        (["D"] ++ ["E"]) = num n ∧ |n| ≤ 1/1000000 := by
  refine balance_reconciler_nets_to_zero CONFIG ["D"] ["E"]
    [("D", (1:ℚ)/2), ("E", (1:ℚ)/2)] [("D", num ((1:ℚ)/100)), ("E", num ((1:ℚ)/100))]
    rfl (by decide) ?_ ?_ ?_ ?_
  · intro t ht
    have hDE : t = "D" ∨ t = "E" := by simpa using ht
    rcases hDE with h | h <;> subst h
    · exact ⟨1/100, rfl⟩
    · exact ⟨1/100, rfl⟩
  · norm_num [allocSum, qRead, List.lookup,
      (show (("D" == "D")) = true from rfl)]
  · norm_num [allocSum, qRead, List.lookup,
      (show (("E" == "D")) = false from rfl), (show (("E" == "E")) = true from rfl)]
  · have habs : |(1:ℚ)/100| = 1/100 := abs_of_pos (by norm_num)
    norm_num [qNetSum, jRead, jToQ, qRead, List.lookup, habs,
      (show (("E" == "D")) = false from rfl), (show (("E" == "E")) = true from rfl),
      (show (("D" == "D")) = true from rfl)]
